import Mathlib

/-!
Verification of peppy_remote.py (remote visualization client).

Shallow embedding: each component that the properties below concern is
translated into an executable Lean definition.  Python strings are `String`,
Python float values are modelled as `ℚ` (the properties proved here are
algebraic comparisons and copies, not rounding behaviour), fallible or
environment-dependent steps (network fetch, filesystem reads) are passed in
as explicit values describing the outcome.  Python truthiness of optional
strings (`None` and the empty string are falsy) is modelled explicitly.
-/

/-- Python truthiness of an optional string: `None` and `""` are falsy. -/
def strTruthy : Option String → Bool
  | none => false
  | some s => s ≠ ""

/-- Outcome of reading a meters.txt catalog for a folder: the file path is
empty or the file does not exist; reading raised an exception; or the list of
section names it declares. -/
inductive MetersFile where
  | absent : MetersFile
  | readError : MetersFile
  | sections : List String → MetersFile
deriving DecidableEq

/-- The fetched config blob as seen after the INI parse inside
parse_server_meter_state: falsy content, a parse exception, content without a
[current] section, or the meter.folder and meter values of the [current]
section (each defaulting to the empty string when the key is absent). -/
inductive ConfigBlob where
  | empty : ConfigBlob
  | readFailed : ConfigBlob
  | noCurrent : ConfigBlob
  | current : String → String → ConfigBlob
deriving DecidableEq

/-- The part of parse_server_meter_state after the client override check:
blob dispatch, candidate validation against the catalog, and the final
fallback chain (chosen or meter_folder or random). -/
def parse_meter_state_body (blob : ConfigBlob) (cat : String → MetersFile)
    (amo : Option String) : String × String :=
  match blob with
  | .empty => ("", "random")
  | .readFailed => ("", "random")
  | .noCurrent => ("", "random")
  | .current meter_folder meter_value =>
    let chosen_meter : String :=
      match amo with
      | some ov =>
        if ov ≠ "" then
          -- meters_file is nonempty only when meter_folder is truthy
          match (if meter_folder ≠ "" then cat meter_folder else MetersFile.absent) with
          | .absent => ov
          | .readError => ov
          | .sections l =>
            if ov ∈ l then ov
            else if meter_value ≠ "" ∧ meter_value ≠ ov then meter_value
            else "random"
        else
          -- falsy override behaves like no override
          if meter_value = "" ∧ meter_folder ≠ "" then meter_folder
          else if meter_value = "" then "random"
          else meter_value
      | none =>
        if meter_value = "" ∧ meter_folder ≠ "" then meter_folder
        else if meter_value = "" then "random"
        else meter_value
    let final_meter := if chosen_meter ≠ "" then chosen_meter
      else if meter_folder ≠ "" then meter_folder else "random"
    (meter_folder, final_meter)

/-- Embedding of parse_server_meter_state (peppy_remote.py lines 2452-2507).
`cat` maps a meter folder to the outcome of reading its meters.txt catalog
(the filesystem, passed in explicitly).  Returns (meter_folder, final_meter). -/
def parse_server_meter_state (blob : ConfigBlob) (cat : String → MetersFile)
    (active_meter_override : Option String)
    (client_theme_override : Option (String × String)) : String × String :=
  match client_theme_override with
  | some (cf, cm) =>
    if cf.trim ≠ "" ∧ cm.trim ≠ "" then (cf.trim, cm.trim)
    else parse_meter_state_body blob cat active_meter_override
  | none => parse_meter_state_body blob cat active_meter_override

example : parse_server_meter_state (.current "F" "m")
    (fun _ => .absent) none none = ("F", "m") := by decide

example : parse_server_meter_state (.current "F" "x")
    (fun f => if f = "F" then .sections ["a"] else .absent) (some "x") none
    = ("F", "random") := by decide

/-- The mutable flags of ConfigVersionListener that the packet handler and
the reload check touch (peppy_remote.py lines 1176-1184). -/
structure CVLState where
  reload_requested : Bool
  new_active_meter : Option String
  first_announcement_received : Bool
deriving DecidableEq

/-- current_version_holder: a dict with version, active_meter and
active_meter_folder keys, read with default "". -/
structure VersionHolder where
  version : String
  active_meter : String
  active_meter_folder : String
deriving DecidableEq

/-- One datagram as seen by ConfigVersionListener.run after recvfrom: either
it failed to decode as JSON, or it decoded and carries the service,
config_version and active_meter fields (absent keys are `none`). -/
inductive Announcement where
  | malformed : Announcement
  | fields : Option String → Option String → Option String → Announcement
deriving DecidableEq

/-- Embedding of the per-datagram body of ConfigVersionListener.run
(peppy_remote.py lines 1198-1228).  `server_ip` is the optional source
filter, `srcIp` the sender address of the datagram, `holder` the shared
current_version_holder.  Returns the updated listener flags. -/
def cvl_handle (server_ip : Option String) (holder : VersionHolder)
    (st : CVLState) (srcIp : String) (d : Announcement) : CVLState :=
  if (match server_ip with | some ip => srcIp != ip | none => false) then st
  else
    match d with
    | .malformed => st
    | .fields service cfgv am =>
      if service ≠ some "peppy_level_server" then st
      else
        let st1 := { st with first_announcement_received := true }
        let st2 := if strTruthy am then { st1 with new_active_meter := am } else st1
        let new_version := cfgv.getD ""
        let st3 :=
          if new_version ≠ "" ∧ new_version ≠ holder.version then
            { st2 with reload_requested := true }
          else st2
        let new_meter := am.getD ""
        if new_meter ≠ "" ∧ new_meter ≠ holder.active_meter then
          { st3 with new_active_meter := some new_meter, reload_requested := true }
        else st3

/-- Result of a ConfigFetcher.fetch call as consumed by the reload check: a
failure (any error path, returning success=False), or a success carrying the
parsed shape of the config content and the fetched version string.
`ConfigBlob.empty` stands for falsy (empty) content. -/
inductive FetchResult where
  | failure : FetchResult
  | success : ConfigBlob → String → FetchResult
deriving DecidableEq

/-- The memo cells _reload_check_done and _reload_should_exit
(peppy_remote.py lines 3044-3045); should_exit starts as `none` (None). -/
structure ReloadCache where
  done : Bool
  should_exit : Option Bool
deriving DecidableEq

/-- Everything _check_reload_callback returns or mutates: the verdict (the
Python return value, `none` only on the unreachable uninitialized memo),
the listener flags, the memo cells, and the belief holder. -/
structure ReloadOutcome where
  verdict : Option Bool
  listener : CVLState
  cache : ReloadCache
  holder : VersionHolder
deriving DecidableEq

/-- Embedding of _check_reload_callback (peppy_remote.py lines 3052-3082).
The fetch outcome and the meters.txt catalogs are passed in as values;
current_folder and current_meter are the currently effective tuple read from
the meter config. -/
def check_reload_callback (listener : CVLState) (cache : ReloadCache)
    (holder : VersionHolder) (current_folder current_meter : String)
    (fetch_result : FetchResult) (cat : String → MetersFile)
    (client_override : Option (String × String)) : ReloadOutcome :=
  if listener.reload_requested = false then
    ⟨some false, listener, { cache with done := false }, holder⟩
  else if cache.done then
    ⟨cache.should_exit, listener, cache, holder⟩
  else
    match fetch_result with
    | .failure => ⟨some true, listener, ⟨true, some true⟩, holder⟩
    | .success blob ver =>
      if blob = ConfigBlob.empty then
        ⟨some true, listener, ⟨true, some true⟩, holder⟩
      else
        let nm := parse_server_meter_state blob cat listener.new_active_meter client_override
        if nm.1 = current_folder ∧ nm.2 = current_meter then
          ⟨some false,
           { listener with reload_requested := false, new_active_meter := none },
           ⟨true, some false⟩,
           { version := ver,
             active_meter := if nm.2 = "" then current_meter else nm.2,
             active_meter_folder := if nm.1 = "" then current_folder else nm.1 }⟩
        else ⟨some true, listener, ⟨true, some true⟩, holder⟩

example :
    check_reload_callback ⟨true, none, true⟩ ⟨false, none⟩ ⟨"v0", "m", "F"⟩
      "F" "m" (.success (.current "F" "m") "v1") (fun _ => .absent) none
    = ⟨some false, ⟨false, none, true⟩, ⟨true, some false⟩, ⟨"v1", "m", "F"⟩⟩ := by
  decide

example :
    (check_reload_callback ⟨true, none, true⟩ ⟨false, none⟩ ⟨"v0", "m", "F"⟩
      "F" "m" FetchResult.failure (fun _ => .absent) none).verdict = some true := by
  decide

/-- The persist_duration value of the inner envelope, as it behaves under
`int(inner.get(..., 0) or 0)`: absent key, a falsy value (None, 0, "",
false), a truthy value int() accepts, or a truthy value int() rejects
(for example a non-numeric string), which raises. -/
inductive PDur where
  | missing : PDur
  | falsy : PDur
  | intOk : Int → PDur
  | raisesError : PDur
deriving DecidableEq

/-- `int(x or 0)` over a PDur value; `none` means int() raised. -/
def pdurToInt : PDur → Option Int
  | .missing => some 0
  | .falsy => some 0
  | .intOk n => some n
  | .raisesError => none

/-- The inner envelope of the fetch response (data field of the parsed JSON;
an absent or falsy data field behaves as an envelope with success = false). -/
structure InnerEnvelope where
  success : Bool
  config : String
  version : String
  pdur : PDur
  pdisplay : Option String
deriving DecidableEq

/-- A fetch attempt as seen from inside ConfigFetcher.fetch: the four
exception paths, or a parsed JSON body with the outer success flag and the
inner envelope. -/
inductive FetchResponse where
  | urlError : FetchResponse
  | httpError : FetchResponse
  | jsonError : FetchResponse
  | otherError : FetchResponse
  | parsed : Bool → InnerEnvelope → FetchResponse
deriving DecidableEq

/-- The mutable fields of ConfigFetcher (peppy_remote.py lines 1261-1268):
cached_config and cached_version start as None. -/
structure FetcherState where
  cached_config : Option String
  cached_version : Option String
  persist_duration : Int
  persist_display : String
deriving DecidableEq

/-- Embedding of ConfigFetcher.fetch (peppy_remote.py lines 1270-1315).
Returns the (success, config_content, version) triple and the fetcher state
after the call.  The assignments to cached_config and cached_version happen
before the int() conversion of persist_duration, so when that conversion
raises, the generic exception handler returns the failure triple with the
two caches already overwritten. -/
def fetcher_fetch (st : FetcherState) (resp : FetchResponse) :
    (Bool × Option String × Option String) × FetcherState :=
  match resp with
  | .urlError => ((false, none, none), st)
  | .httpError => ((false, none, none), st)
  | .jsonError => ((false, none, none), st)
  | .otherError => ((false, none, none), st)
  | .parsed outer inner =>
    if outer then
      if inner.success then
        let st1 := { st with cached_config := some inner.config,
                             cached_version := some inner.version }
        match pdurToInt inner.pdur with
        | some n =>
          let pd : String :=
            match inner.pdisplay with
            | some s => if s ≠ "" then s else "freeze"
            | none => "freeze"
          let st2 := { st1 with persist_duration := n, persist_display := pd }
          ((true, some inner.config, some inner.version), st2)
        | none => ((false, none, none), st1)
      else ((false, none, none), st)
    else ((false, none, none), st)

example :
    fetcher_fetch ⟨none, none, 0, "freeze"⟩ (.parsed true ⟨true, "C", "v2", .raisesError, none⟩)
    = ((false, none, none), ⟨some "C", some "v2", 0, "freeze"⟩) := by decide

/-- State of SpectrumReceiver that _receive_loop writes
(peppy_remote.py lines 1980-1983); bin values modelled as rationals. -/
structure SpectrumState where
  seq : Nat
  size : Nat
  bins : List ℚ
  last_update : ℚ
deriving DecidableEq

/-- One spectrum datagram: sender address, received byte length, and the
decoded header and payload fields (seq and declaredSize are the values of
the first six bytes, meaningful once length ≥ 6; binData lists the
declaredSize float values of the payload, decodable once
length ≥ 6 + 4 * declaredSize). -/
structure SpectrumPacket where
  srcIp : String
  length : Nat
  seq : Nat
  declaredSize : Nat
  binData : List ℚ
deriving DecidableEq

/-- Embedding of one iteration of SpectrumReceiver._receive_loop
(peppy_remote.py lines 1998-2040): source filter, minimum header length,
full-frame length check, then the atomic field update.  `server_ip` is the
configured server, `now` the wall clock value stored in last_update. -/
def spectrum_receive_step (server_ip : String) (now : ℚ)
    (st : SpectrumState) (p : SpectrumPacket) : SpectrumState :=
  if p.srcIp ≠ server_ip then st
  else if p.length ≥ 6 then
    if p.length ≥ 6 + p.declaredSize * 4 then
      { seq := p.seq, size := p.declaredSize, bins := p.binData, last_update := now }
    else st
  else st

/-- SpectrumReceiver.get_bins (lines 2071-2073): a copy of the bins, or []
when the list is empty. -/
def spectrum_get_bins (st : SpectrumState) : List ℚ :=
  if st.bins = [] then [] else st.bins

/-- State of LevelReceiver that _receive_loop writes. -/
structure LevelState where
  seq : Nat
  left : ℚ
  right : ℚ
  mono : ℚ
  last_update : ℚ
deriving DecidableEq

/-- One level datagram: sender address, received byte length, and the four
fields decoded from a 16-byte payload. -/
structure LevelPacket where
  srcIp : String
  length : Nat
  seq : Nat
  left : ℚ
  right : ℚ
  mono : ℚ
deriving DecidableEq

/-- Embedding of one iteration of LevelReceiver._receive_loop
(peppy_remote.py lines 1922-1939): only the exact length 16 is accepted,
and no source address check is performed. -/
def level_receive_step (now : ℚ) (st : LevelState) (p : LevelPacket) : LevelState :=
  if p.length = 16 then
    { seq := p.seq, left := p.left, right := p.right, mono := p.mono, last_update := now }
  else st

/-- LevelReceiver.get_levels (lines 1954-1956). -/
def level_get_levels (st : LevelState) : ℚ × ℚ × ℚ :=
  (st.left, st.right, st.mono)

/-- The observable state of PersistManager: the last seen status (None
initially), whether an expiry timer is armed, whether the local signal file
exists, and the persist settings.  File writes are modelled as succeeding. -/
structure PersistState where
  last_status : Option String
  timer_pending : Bool
  file_present : Bool
  persist_duration : Int
  persist_display : String
deriving DecidableEq

/-- Embedding of PersistManager._on_status_change
(peppy_remote.py lines 1376-1404): volatile stop or pause returns before
any effect, including the last_status update. -/
def on_status_change (st : PersistState) (status : String) (volatile : Bool) :
    PersistState :=
  if volatile ∧ (status = "stop" ∨ status = "pause") then st
  else
    let st1 :=
      if status = "play" then
        { st with timer_pending := false, file_present := false }
      else if (status = "stop" ∨ status = "pause") ∧ st.last_status = some "play" then
        if st.persist_duration > 0 then
          -- _start_persist_countdown: cancel timer, write file, arm timer
          { st with timer_pending := true, file_present := true }
        else
          { st with file_present := false }
      else st
    { st1 with last_status := some status }

/-- ASCII lowercase of one character, the effect of str.lower() on the ASCII
status strings carried by the feed. -/
def asciiLowerChar (c : Char) : Char :=
  if 65 ≤ c.toNat ∧ c.toNat ≤ 90 then Char.ofNat (c.toNat + 32) else c

/-- ASCII lowercase of a string (str.lower() restricted to ASCII input). -/
def asciiLower (s : String) : String :=
  String.mk (s.data.map asciiLowerChar)

/-- Embedding of PersistManager.check_metadata_status
(peppy_remote.py lines 1362-1374): lowercase the status and dispatch only on
a change from the last seen status. -/
def check_metadata_status (st : PersistState) (status_raw : String)
    (volatile : Bool) : PersistState :=
  let status := asciiLower status_raw
  if st.last_status ≠ some status then on_status_change st status volatile else st

example :
    check_metadata_status ⟨some "play", false, false, 10, "freeze"⟩ "STOP" true
    = ⟨some "play", false, false, 10, "freeze"⟩ := by decide

example :
    check_metadata_status ⟨some "play", false, false, 10, "freeze"⟩ "stop" false
    = ⟨some "stop", true, true, 10, "freeze"⟩ := by decide

/-- The data state of RemoteSpectrumOutput.update: the local decaying bar
array and the previous raw server frame used for change detection.  The
packet sequence tracking field is initialized to -1 and never written by
update, so it is omitted; the rendering side effects on the external
Spectrum object are outside the model. -/
structure SmoothState where
  local_bins : List ℚ
  prev_server_bins : Option (List ℚ)
deriving DecidableEq

/-- Python min over two naturals, written out so it evaluates by kernel
reduction. -/
def natMin (a b : Nat) : Nat := if a ≤ b then a else b

/-- Python max over two rationals, written out so it evaluates by kernel
reduction. -/
def qMax (a b : ℚ) : ℚ := if a ≤ b then b else a

/-- Python abs over a rational, written out so it evaluates by kernel
reduction. -/
def qAbs (a : ℚ) : ℚ := if a < 0 then -a else a

/-- Rational multiplication written through mkRat so it evaluates by kernel
reduction; proved equal to the ℚ multiplication below. -/
def qMul (a b : ℚ) : ℚ := mkRat (a.num * b.num) (a.den * b.den)

/-- Rational subtraction written through mkRat so it evaluates by kernel
reduction; proved equal to the ℚ subtraction below. -/
def qSub (a b : ℚ) : ℚ :=
  mkRat (a.num * (b.den : Int) - b.num * (a.den : Int)) (a.den * b.den)

theorem qMul_eq_mul (a b : ℚ) : qMul a b = a * b := by
  rw [qMul, Rat.mul_def, Rat.normalize_eq_mkRat]

theorem qSub_eq_sub (a b : ℚ) : qSub a b = a - b := by
  rw [qSub, Rat.sub_def, Rat.normalize_eq_mkRat]

theorem qAbs_eq_abs (a : ℚ) : qAbs a = |a| := by
  by_cases h : a < 0
  · simp [qAbs, h, abs_of_neg h]
  · simp [qAbs, h, abs_of_nonneg (le_of_not_lt h)]

theorem qMax_eq_max (a b : ℚ) : qMax a b = max a b := by
  by_cases h : a ≤ b
  · simp [qMax, h, max_eq_right h]
  · simp [qMax, h, max_eq_left (le_of_not_le h)]

theorem natMin_eq_min (a b : Nat) : natMin a b = min a b := by
  by_cases h : a ≤ b
  · simp [natMin, h, Nat.min_eq_left h]
  · simp [natMin, h, Nat.min_eq_right (Nat.le_of_not_le h)]

/-- One decay sweep over the first n entries of the bar list: multiply by
the decay rate and snap to 0 when the result is below 0.5 (peppy_remote.py
lines 2383-2386, and identically lines 2375-2379 inside the burst guard). -/
def decayFrom (decay : ℚ) : Nat → List ℚ → List ℚ
  | _, [] => []
  | 0, l => l
  | n + 1, x :: t =>
    (if qMul decay x < mkRat 1 2 then 0 else qMul decay x) :: decayFrom decay n t

/-- The rise sweep (lines 2389-2394): for the first min(len bins, n)
entries, replace the local value by the server value when the server value
is strictly higher. -/
def riseFrom : Nat → List ℚ → List ℚ → List ℚ
  | _, _, [] => []
  | 0, _, l => l
  | _ + 1, [], l => l
  | n + 1, b :: bt, x :: t => (if b > x then b else x) :: riseFrom n bt t

/-- Python max over a list (only ever applied to a nonempty list). -/
def listMax : List ℚ → ℚ
  | [] => 0
  | h :: t => t.foldl qMax h

/-- The change detection of lines 2356-2365: with a truthy previous frame,
changed when some bin pair differs by more than 1 (over the common length);
with no or an empty previous frame, changed exactly when the incoming frame
is nonempty. -/
def binsChanged (bins : List ℚ) (prev : Option (List ℚ)) : Bool :=
  match prev with
  | some p =>
    if bins ≠ [] ∧ p ≠ [] then (bins.zip p).any (fun q => decide (qAbs (qSub q.1 q.2) > 1))
    else decide (bins ≠ [])
  | none => decide (bins ≠ [])

/-- The burst guard condition of lines 2371-2373: at least two bins, the
frame maximum above 50, and every bin within 2 units of that maximum. -/
def isBurstFrame (bins : List ℚ) : Bool :=
  decide (2 ≤ bins.length) && decide (50 < listMax bins) &&
    bins.all (fun b => decide (qAbs (qSub b (listMax bins)) ≤ 2))

/-- Embedding of the data flow of RemoteSpectrumOutput.update
(peppy_remote.py lines 2321-2394): early return on an empty local array,
change detection against the previous raw frame, recording of the raw frame,
the burst guard (which decays the local bars and then drops the frame, so
the normal decay step below runs a second time on such ticks), the
unconditional decay sweep, and the rise sweep for genuinely changed frames.
prevLen is the length of the bar array of the external Spectrum object. -/
def smoother_update (decay : ℚ) (prevLen : Nat) (st : SmoothState)
    (bins0 : List ℚ) : SmoothState :=
  if st.local_bins = [] then st
  else
    let numBars := natMin st.local_bins.length prevLen
    let changed := binsChanged bins0 st.prev_server_bins
    let prev2 := if bins0 ≠ [] then some bins0 else st.prev_server_bins
    let local1 := if isBurstFrame bins0 then decayFrom decay numBars st.local_bins
      else st.local_bins
    let bins1 := if isBurstFrame bins0 then ([] : List ℚ) else bins0
    let local2 := decayFrom decay numBars local1
    let local3 := if bins1 ≠ [] ∧ changed then riseFrom numBars bins1 local2 else local2
    ⟨local3, prev2⟩

/-- The clamp applied to the decay rate at construction (line 2150):
max(0.5, min(0.99, decay_rate)). -/
def clamp_decay_rate (r : ℚ) : ℚ :=
  qMax (mkRat 1 2) (if r ≤ mkRat 99 100 then r else mkRat 99 100)

example :
    smoother_update (mkRat 9 10) 1 ⟨[100], none⟩ [80, 81]
    = ⟨[81], some [80, 81]⟩ := by decide

example :
    smoother_update (mkRat 9 10) 3 ⟨[0, 0, 0], some [80, 80, 81]⟩ [10, 60, 5]
    = ⟨[10, 60, 5], some [10, 60, 5]⟩ := by decide

/-! ## Claim theorems -/

/-- Claim C1: reconciliation verdict on equality.  When reloadRequested is
set (and the memo is not yet filled), a successful fetch with nonempty
content resolves a (folder, meter) tuple; when it equals the currently
effective tuple the verdict is no reload (some false), reload_requested and
new_active_meter are cleared, and the belief holder is updated to the
resolved values; when it differs in folder or meter the verdict is reload
required (some true). -/
theorem reconcile_verdict_matches_tuple (listener : CVLState) (cache : ReloadCache)
    (holder : VersionHolder) (cf cm : String) (blob : ConfigBlob) (ver : String)
    (cat : String → MetersFile) (ovr : Option (String × String)) (res : String × String)
    (hreq : listener.reload_requested = true) (hdone : cache.done = false)
    (hne : blob ≠ ConfigBlob.empty)
    (hres : parse_server_meter_state blob cat listener.new_active_meter ovr = res) :
    (res = (cf, cm) →
      check_reload_callback listener cache holder cf cm (.success blob ver) cat ovr =
        ⟨some false, { listener with reload_requested := false, new_active_meter := none },
         ⟨true, some false⟩, ⟨ver, res.2, res.1⟩⟩) ∧
    (res ≠ (cf, cm) →
      check_reload_callback listener cache holder cf cm (.success blob ver) cat ovr =
        ⟨some true, listener, ⟨true, some true⟩, holder⟩) := by
  constructor
  · intro heq
    subst heq
    simp [check_reload_callback, hreq, hdone, hne, hres]
  · intro hneq
    have hsplit : ¬(res.1 = cf ∧ res.2 = cm) := by
      intro ⟨h1, h2⟩
      exact hneq (Prod.ext h1 h2)
    simp [check_reload_callback, hreq, hdone, hne, hres, hsplit]

/-- Claim C1 witness: a concrete run in which the resolved tuple equals the
current tuple and the verdict is no reload with the holder updated. -/
theorem reconcile_verdict_matches_tuple_witness :
    check_reload_callback ⟨true, none, true⟩ ⟨false, none⟩ ⟨"v0", "m", "F"⟩ "F" "m"
      (.success (.current "F" "m") "v1") (fun _ => .absent) none
      = ⟨some false, ⟨false, none, true⟩, ⟨true, some false⟩, ⟨"v1", "m", "F"⟩⟩ :=
  (reconcile_verdict_matches_tuple ⟨true, none, true⟩ ⟨false, none⟩ ⟨"v0", "m", "F"⟩
      "F" "m" (.current "F" "m") "v1" (fun _ => .absent) none ("F", "m")
      rfl rfl (by decide) (by decide)).1 rfl

/-- Claim C2: fail-safe on fetch failure.  With reloadRequested set and the
memo not yet filled, a failed fetch, or a successful fetch whose content is
empty, yields the verdict reload required, for every current tuple. -/
theorem reconcile_fetch_failure_forces_reload (listener : CVLState)
    (cache : ReloadCache) (holder : VersionHolder) (cf cm : String)
    (fr : FetchResult) (cat : String → MetersFile) (ovr : Option (String × String))
    (hreq : listener.reload_requested = true) (hdone : cache.done = false)
    (hfail : fr = FetchResult.failure ∨ ∃ v, fr = FetchResult.success ConfigBlob.empty v) :
    (check_reload_callback listener cache holder cf cm fr cat ovr).verdict = some true := by
  rcases hfail with h | ⟨v, h⟩ <;> subst h <;> simp [check_reload_callback, hreq, hdone]

/-- Claim C2 witness: a concrete fetch failure with no tuple change observed
still yields reload required. -/
theorem reconcile_fetch_failure_forces_reload_witness :
    (check_reload_callback ⟨true, none, true⟩ ⟨false, none⟩ ⟨"v0", "m", "F"⟩ "F" "m"
      FetchResult.failure (fun _ => .absent) none).verdict = some true :=
  reconcile_fetch_failure_forces_reload ⟨true, none, true⟩ ⟨false, none⟩ ⟨"v0", "m", "F"⟩
    "F" "m" FetchResult.failure (fun _ => .absent) none rfl rfl (Or.inl rfl)

/-- Claim C3 counterexample: with catalog sections ["a"], blob meter "x" and
candidate "x" (invalid), the claim as stated predicts a fallback to the
blob's nonblank meter field "x", but the code resolves "random" because the
blob's meter equals the invalid candidate. -/
theorem candidate_meter_fallback_counterexample :
    parse_server_meter_state (.current "F" "x")
      (fun f => if f = "F" then MetersFile.sections ["a"] else .absent) (some "x") none
      = ("F", "random") ∧ ("random" : String) ≠ "x" := by decide

/-- Claim C3 (amended): when the catalog of a nonempty meterFolder is
readable with section list l, a nonempty candidate wins when it is a section
of l; otherwise the resolution falls back to the blob's meter field unless
that field is blank or equal to the invalid candidate, in which case it is
"random". -/
theorem candidate_meter_validation (folder meter ov : String) (l : List String)
    (cat : String → MetersFile) (hf : folder ≠ "") (hov : ov ≠ "")
    (hcat : cat folder = .sections l) :
    parse_server_meter_state (.current folder meter) cat (some ov) none =
      (folder, if ov ∈ l then ov
               else if meter ≠ "" ∧ meter ≠ ov then meter else "random") := by
  unfold parse_server_meter_state parse_meter_state_body
  by_cases hmem : ov ∈ l
  · simp [hf, hov, hcat, hmem]
  · by_cases hmv : meter ≠ "" ∧ meter ≠ ov
    · simp [hf, hov, hcat, hmem, hmv, hmv.1]
    · simp [hf, hov, hcat, hmem, hmv]

/-- Claim C3 witness: a concrete valid candidate wins over the blob meter. -/
theorem candidate_meter_validation_witness :
    parse_server_meter_state (.current "F" "m")
      (fun f => if f = "F" then MetersFile.sections ["a"] else .absent) (some "a") none
      = ("F", "a") := by
  have h := candidate_meter_validation "F" "m" "a" ["a"]
    (fun f => if f = "F" then MetersFile.sections ["a"] else .absent)
    (by decide) (by decide) (by decide)
  simpa using h

/-- Claim C4 counterexample: a valid announcement carrying config_version ""
and active_meter "", both present and different from the belief values "v1"
and "m1", sets neither reload_requested nor a candidate meter, because the
code reacts only to truthy (nonempty) announced values. -/
theorem watcher_truthiness_counterexample :
    ("" ≠ "v1") ∧ ("" ≠ "m1") ∧
    cvl_handle none ⟨"v1", "m1", ""⟩ ⟨false, none, false⟩ "10.0.0.2"
      (.fields (some "peppy_level_server") (some "") (some ""))
      = ⟨false, none, true⟩ := by decide

/-- Claim C4 (amended): for every valid announcement, a nonempty announced
config_version that differs from the belief version sets reload_requested,
and a nonempty announced active_meter that differs from the belief
active_meter sets reload_requested and is recorded as the candidate. -/
theorem watcher_sets_reload_on_nonempty_change (holder : VersionHolder)
    (st : CVLState) (srcIp : String) (cfgv am : Option String) (r : CVLState)
    (hr : cvl_handle none holder st srcIp
      (.fields (some "peppy_level_server") cfgv am) = r) :
    ((cfgv.getD "" ≠ "" ∧ cfgv.getD "" ≠ holder.version) → r.reload_requested = true) ∧
    ((am.getD "" ≠ "" ∧ am.getD "" ≠ holder.active_meter) →
      r.reload_requested = true ∧ r.new_active_meter = some (am.getD "")) := by
  subst hr
  constructor
  · rintro ⟨h1, h2⟩
    by_cases hs2 : strTruthy am <;>
      by_cases hm : am.getD "" ≠ "" ∧ am.getD "" ≠ holder.active_meter <;>
        simp [cvl_handle, hs2, hm, h1, h2]
  · rintro ⟨h1, h2⟩
    by_cases hs2 : strTruthy am <;>
      by_cases hv : cfgv.getD "" ≠ "" ∧ cfgv.getD "" ≠ holder.version <;>
        simp [cvl_handle, hs2, hv, h1, h2]

/-- Claim C4 witness: a concrete announcement with a new version and a new
active meter sets reload_requested and records the candidate. -/
theorem watcher_sets_reload_on_nonempty_change_witness :
    (cvl_handle none ⟨"v1", "m1", ""⟩ ⟨false, none, false⟩ "10.0.0.2"
        (.fields (some "peppy_level_server") (some "v2") (some "m2"))).reload_requested
      = true ∧
    (cvl_handle none ⟨"v1", "m1", ""⟩ ⟨false, none, false⟩ "10.0.0.2"
        (.fields (some "peppy_level_server") (some "v2") (some "m2"))).new_active_meter
      = some "m2" := by
  have h := watcher_sets_reload_on_nonempty_change ⟨"v1", "m1", ""⟩ ⟨false, none, false⟩
    "10.0.0.2" (some "v2") (some "m2") _ rfl
  have h2 := h.2 (by decide)
  simpa using h2

/-- Claim C5 counterexample: a response with both success flags true but a
persist_duration value that int() rejects returns the failure triple while
having already overwritten cached_config and cached_version, so ok is not
equivalent to the two flags and a failed fetch is not state-preserving. -/
theorem fetch_atomicity_counterexample :
    (fetcher_fetch ⟨none, none, 0, "freeze"⟩
        (.parsed true ⟨true, "CFG", "v2", .raisesError, none⟩)).1.1 = false ∧
    (fetcher_fetch ⟨none, none, 0, "freeze"⟩
        (.parsed true ⟨true, "CFG", "v2", .raisesError, none⟩)).2
      = ⟨some "CFG", some "v2", 0, "freeze"⟩ ∧
    (⟨some "CFG", some "v2", 0, "freeze"⟩ : FetcherState) ≠ ⟨none, none, 0, "freeze"⟩ := by
  decide

/-- Claim C5 (amended): fetch() returns ok=true exactly when the outer and
inner success flags are both true and the inner persist_duration value is
accepted by int(); every failure returns (false, None, None); a failed fetch
leaves the fetcher state unchanged except in the rejected-persist_duration
case, which has already overwritten cached_config and cached_version; a
successful fetch returns the cached config and version. -/
theorem fetch_envelope_and_atomicity (st : FetcherState) (resp : FetchResponse)
    (r : (Bool × Option String × Option String) × FetcherState)
    (hr : fetcher_fetch st resp = r) :
    (r.1.1 = true ↔ ∃ outer inner, resp = .parsed outer inner ∧ outer = true ∧
       inner.success = true ∧ inner.pdur ≠ PDur.raisesError) ∧
    (r.1.1 = false → r.1.2.1 = none ∧ r.1.2.2 = none) ∧
    (r.1.1 = false → r.2 = st ∨
       ∃ outer inner, resp = .parsed outer inner ∧ inner.pdur = PDur.raisesError ∧
         r.2 = { st with cached_config := some inner.config,
                         cached_version := some inner.version }) ∧
    (r.1.1 = true → ∃ outer inner, resp = .parsed outer inner ∧
       r.1.2.1 = some inner.config ∧ r.1.2.2 = some inner.version) := by
  subst hr
  cases resp with
  | urlError => simp [fetcher_fetch]
  | httpError => simp [fetcher_fetch]
  | jsonError => simp [fetcher_fetch]
  | otherError => simp [fetcher_fetch]
  | parsed outer inner =>
    by_cases houter : outer
    · by_cases hsucc : inner.success
      · cases hpd : inner.pdur with
        | missing =>
          subst houter
          refine ⟨?_, ?_, ?_, ?_⟩ <;>
            simp [fetcher_fetch, hsucc, pdurToInt, hpd]
        | falsy =>
          subst houter
          refine ⟨?_, ?_, ?_, ?_⟩ <;>
            simp [fetcher_fetch, hsucc, pdurToInt, hpd]
        | intOk n =>
          subst houter
          refine ⟨?_, ?_, ?_, ?_⟩ <;>
            simp [fetcher_fetch, hsucc, pdurToInt, hpd]
        | raisesError =>
          subst houter
          refine ⟨?_, ?_, ?_, ?_⟩ <;>
            simp [fetcher_fetch, hsucc, pdurToInt, hpd]
      · simp [fetcher_fetch, houter, hsucc]
    · simp [fetcher_fetch, houter]

/-- Claim C5 witness: a concrete fully successful fetch returns ok=true. -/
theorem fetch_envelope_and_atomicity_witness :
    (fetcher_fetch ⟨none, none, 0, "freeze"⟩
        (.parsed true ⟨true, "C", "v1", .intOk 5, some "countdown"⟩)).1.1 = true := by
  have h := fetch_envelope_and_atomicity ⟨none, none, 0, "freeze"⟩
    (.parsed true ⟨true, "C", "v1", .intOk 5, some "countdown"⟩) _ rfl
  exact h.1.mpr ⟨true, ⟨true, "C", "v1", .intOk 5, some "countdown"⟩, rfl, rfl, rfl, by decide⟩

/-- Claim C6: spectrum frame length validation.  A datagram whose received
length is below 6 + 4 times its declared bin count leaves the whole receiver
state unchanged — in particular get_bins, the stored sequence number and the
bin count — for every source address. -/
theorem spectrum_short_frame_dropped (server_ip : String) (now : ℚ)
    (st : SpectrumState) (p : SpectrumPacket)
    (hshort : p.length < 6 + p.declaredSize * 4) :
    spectrum_receive_step server_ip now st p = st ∧
    spectrum_get_bins (spectrum_receive_step server_ip now st p)
      = spectrum_get_bins st := by
  have hstep : spectrum_receive_step server_ip now st p = st := by
    unfold spectrum_receive_step
    by_cases h1 : p.srcIp ≠ server_ip
    · simp [h1]
    · have h3 : ¬(6 + p.declaredSize * 4 ≤ p.length) := by omega
      by_cases h2 : 6 ≤ p.length
      · simp [h1, h2, h3, ge_iff_le]
      · simp [h1, h2, ge_iff_le]
  exact ⟨hstep, by rw [hstep]⟩

/-- Claim C6 witness: a concrete datagram of 10 bytes declaring 2 bins
(needing 14 bytes) leaves a concrete state unchanged. -/
theorem spectrum_short_frame_dropped_witness :
    spectrum_receive_step "10.0.0.1" 5 ⟨7, 4, [1, 2, 3, 4], 3⟩
        ⟨"10.0.0.1", 10, 9, 2, [5, 6]⟩ = ⟨7, 4, [1, 2, 3, 4], 3⟩ ∧
    spectrum_get_bins (spectrum_receive_step "10.0.0.1" 5 ⟨7, 4, [1, 2, 3, 4], 3⟩
        ⟨"10.0.0.1", 10, 9, 2, [5, 6]⟩) = spectrum_get_bins ⟨7, 4, [1, 2, 3, 4], 3⟩ :=
  spectrum_short_frame_dropped "10.0.0.1" 5 ⟨7, 4, [1, 2, 3, 4], 3⟩
    ⟨"10.0.0.1", 10, 9, 2, [5, 6]⟩ (by decide)

/-- Claim C7: spectrum source filter invariant.  A datagram whose source IP
differs from the configured server IP leaves the whole receiver state (bins,
seq, size, last_update) unchanged, regardless of its content. -/
theorem spectrum_foreign_source_ignored (server_ip : String) (now : ℚ)
    (st : SpectrumState) (p : SpectrumPacket) (hsrc : p.srcIp ≠ server_ip) :
    spectrum_receive_step server_ip now st p = st := by
  unfold spectrum_receive_step
  simp [hsrc]

/-- Claim C7 witness: a concrete well-formed frame from a foreign address is
ignored. -/
theorem spectrum_foreign_source_ignored_witness :
    spectrum_receive_step "10.0.0.1" 5 ⟨7, 4, [1, 2, 3, 4], 3⟩
      ⟨"10.0.0.9", 14, 9, 2, [5, 6]⟩ = ⟨7, 4, [1, 2, 3, 4], 3⟩ :=
  spectrum_foreign_source_ignored "10.0.0.1" 5 ⟨7, 4, [1, 2, 3, 4], 3⟩
    ⟨"10.0.0.9", 14, 9, 2, [5, 6]⟩ (by decide)

/-- Claim C8 counterexample: for local bars [100] with decay rate 9/10 and
the burst frame [80, 81] (all bins within 2 of the maximum 81 > 50), the
code leaves the bars at [81] — the decay sweep ran twice (once inside the
guard, once in the normal step) — while a single application of the per-tick
decay yields [90]; so the claim that only the normal decay applies once is
false. -/
theorem burst_guard_counterexample :
    (smoother_update (mkRat 9 10) 1 ⟨[100], none⟩ [80, 81]).local_bins = [81] ∧
    decayFrom (mkRat 9 10) 1 [100] = [90] ∧ ([81] : List ℚ) ≠ [90] := by decide

/-- Claim C8 (amended): on a tick whose incoming frame is a burst frame
(every bin within 2 units of the frame maximum, and that maximum above 50),
no bar is raised from the frame, the frame is recorded as the previous
server frame, and the local bars undergo the per-tick decay sweep twice:
once inside the guard and once in the unconditional decay step. -/
theorem burst_frame_discarded_with_double_decay (decay : ℚ) (prevLen : Nat)
    (st : SmoothState) (bins : List ℚ) (hl : st.local_bins ≠ [])
    (hburst : isBurstFrame bins = true) :
    smoother_update decay prevLen st bins =
      ⟨decayFrom decay (natMin st.local_bins.length prevLen)
         (decayFrom decay (natMin st.local_bins.length prevLen) st.local_bins),
       some bins⟩ := by
  have hne : bins ≠ [] := by
    intro h
    subst h
    simp [isBurstFrame] at hburst
  unfold smoother_update
  simp [hl, hburst, hne]

/-- Claim C8 witness: the amended statement at the concrete burst input. -/
theorem burst_frame_discarded_with_double_decay_witness :
    smoother_update (mkRat 9 10) 1 ⟨[100], none⟩ [80, 81] =
      ⟨decayFrom (mkRat 9 10) (natMin 1 1) (decayFrom (mkRat 9 10) (natMin 1 1) [100]),
       some [80, 81]⟩ :=
  burst_frame_discarded_with_double_decay (mkRat 9 10) 1 ⟨[100], none⟩ [80, 81]
    (by decide) (by decide)

/-- Claim C9: volatile stop and pause transitions are a no-op.  A status
update whose lowered status is stop or pause with volatile set leaves the
entire persist mirror state — lastStatus, the pending timer, the signal file
and the settings — unchanged. -/
theorem volatile_transition_noop (st : PersistState) (status_raw : String)
    (volatile : Bool) (hv : volatile = true)
    (hs : asciiLower status_raw = "stop" ∨ asciiLower status_raw = "pause") :
    check_metadata_status st status_raw volatile = st := by
  subst hv
  unfold check_metadata_status
  rcases hs with h | h <;> rw [h] <;>
    by_cases hlast : st.last_status ≠ some "stop" <;>
    by_cases hlast2 : st.last_status ≠ some "pause" <;>
    simp [on_status_change, hlast, hlast2]

/-- Claim C9 witness: a concrete volatile STOP update while playing changes
nothing. -/
theorem volatile_transition_noop_witness :
    check_metadata_status ⟨some "play", false, false, 10, "freeze"⟩ "STOP" true
      = ⟨some "play", false, false, 10, "freeze"⟩ :=
  volatile_transition_noop ⟨some "play", false, false, 10, "freeze"⟩ "STOP" true
    rfl (Or.inl (by decide))

/-- Claim C10 (implicit): the level receiver applies no source filter.  For
every 16-byte datagram from any sender address, the whole state is replaced
by the decoded fields and get_levels returns exactly the decoded
(left, right, mono) triple. -/
theorem level_updates_from_any_source (now : ℚ) (st : LevelState) (p : LevelPacket)
    (hlen : p.length = 16) :
    level_receive_step now st p = ⟨p.seq, p.left, p.right, p.mono, now⟩ ∧
    level_get_levels (level_receive_step now st p) = (p.left, p.right, p.mono) := by
  unfold level_receive_step level_get_levels
  simp [hlen]

/-- Claim C10 witness: a concrete 16-byte datagram from an arbitrary sender
updates the levels to its decoded fields. -/
theorem level_updates_from_any_source_witness :
    level_receive_step 9 ⟨0, 0, 0, 0, 0⟩ ⟨"192.168.1.77", 16, 3, 10, 20, 15⟩
      = ⟨3, 10, 20, 15, 9⟩ ∧
    level_get_levels (level_receive_step 9 ⟨0, 0, 0, 0, 0⟩ ⟨"192.168.1.77", 16, 3, 10, 20, 15⟩)
      = (10, 20, 15) :=
  level_updates_from_any_source 9 ⟨0, 0, 0, 0, 0⟩ ⟨"192.168.1.77", 16, 3, 10, 20, 15⟩ rfl
